import Mathlib

/-!
Verification of the LandIS Portal metadata exporter against its
natural-language specification.

The development shallowly embeds the Python sources:

* `metadata_exporter/xml_builder.py` — pure XML-tree construction from a
  metadata bundle (the `_format_date` helper, the keyword grouping, the
  extent / identification / data-quality builders);
* `metadata_exporter/db.py` — bundle assembly over a relational store,
  modelled as explicit association-list tables plus a query log;
* `metadata_exporter/cleanup.py` — the quote-normalisation pass.

Python `None` is modelled with `Option`; Python values that may be native
dates, date-times, numbers or strings are modelled by `PyVal`; Python
string/None truthiness is modelled explicitly.  Fallible assembly returns
`Except`.  Definitions follow the source; names keep the source's names
where Lean allows it.
-/

namespace LandIS

/-- A Python `datetime.date` value (year, month, day). -/
structure PyDate where
  year : Nat
  month : Nat
  day : Nat
  deriving Repr, DecidableEq

/-- Left-pad the decimal representation of `n` with zeros to width `w`,
as Python's `date.isoformat` renders each component. -/
def pad (w n : Nat) : String :=
  let s := toString n
  String.mk (List.replicate (w - s.length) '0') ++ s

/-- `date.isoformat()` — the ISO calendar date `YYYY-MM-DD`. -/
def PyDate.isoformat (d : PyDate) : String :=
  pad 4 d.year ++ "-" ++ pad 2 d.month ++ "-" ++ pad 2 d.day

/-- A dynamically-typed Python value as it arrives from the database
driver: a string, an integer, a native `date`, or a native `datetime`
(namely a date plus a time of day). -/
inductive PyVal where
  | vstr (s : String)
  | vint (n : Int)
  | vdate (d : PyDate)
  | vdatetime (d : PyDate) (hour minute second : Nat)
  deriving Repr, DecidableEq

/-- Python `isinstance(value, date)`.  In Python, `datetime` is a subclass
of `date`, so a `datetime` value also satisfies this test. -/
def isinstance_date : PyVal → Bool
  | .vdate _ => true
  | .vdatetime _ _ _ _ => true
  | _ => false

/-- Python `isinstance(value, datetime)`. -/
def isinstance_datetime : PyVal → Bool
  | .vdatetime _ _ _ _ => true
  | _ => false

/-- The `isoformat()` method as dispatched on the runtime type: a
`datetime` renders with its time-of-day (`YYYY-MM-DDTHH:MM:SS`), a `date`
as the calendar date.  Unreached for non-date values. -/
def PyVal.isoformat : PyVal → String
  | .vdate d => d.isoformat
  | .vdatetime d h mi s => d.isoformat ++ "T" ++ pad 2 h ++ ":" ++ pad 2 mi ++ ":" ++ pad 2 s
  | .vstr s => s
  | .vint n => toString n

/-- The `.date()` method of a `datetime`; identity on a plain `date`. -/
def PyVal.dateOnly : PyVal → PyVal
  | .vdatetime d _ _ _ => .vdate d
  | v => v

/-- Python `str.strip()` on a character list: drop leading and trailing
whitespace (modelled for the ASCII whitespace classes). -/
def stripChars (l : List Char) : List Char :=
  ((l.dropWhile Char.isWhitespace).reverse.dropWhile Char.isWhitespace).reverse

/-- Python `str.strip()` with no argument. -/
def pyStrip (s : String) : String := String.mk (stripChars s.data)

/-- Python `str(value)` for the values we model (`str(date)` is the ISO
date, `str(datetime)` uses a space separator). -/
def pyStr : PyVal → String
  | .vstr s => s
  | .vint n => toString n
  | .vdate d => d.isoformat
  | .vdatetime d h mi s => d.isoformat ++ " " ++ pad 2 h ++ ":" ++ pad 2 mi ++ ":" ++ pad 2 s

/-- `xml_builder._format_date`, translated branch for branch:

    if value is None: return None
    if isinstance(value, date): return value.isoformat()
    if isinstance(value, datetime): return value.date().isoformat()
    text = str(value).strip()
    return text or None

Note that the first `isinstance` test also captures `datetime` values
(Python subclassing), so the second branch is unreachable. -/
def _format_date (value : Option PyVal) : Option String :=
  match value with
  | none => none
  | some v =>
    if isinstance_date v then some v.isoformat
    else if isinstance_datetime v then some v.dateOnly.isoformat
    else
      let text := pyStrip (pyStr v)
      if text = "" then none else some text

/-- Truthiness of a Python `Optional[str]`: `None` and the empty string
are falsy, every other string is truthy. -/
def strTruthy : Option String → Bool
  | none => false
  | some s => !(s == "")

/-- Truthiness of an optional dynamically-typed value, as used by the
builders (`if citation.get("citation_pubdate"):` and similar). -/
def pyTruthy : Option PyVal → Bool
  | none => false
  | some (.vstr s) => !(s == "")
  | some (.vint n) => !(n == 0)
  | some (.vdate _) => true
  | some (.vdatetime _ _ _ _) => true

/-! ## XML tree model

`xml.etree.ElementTree` elements carry a tag, attributes (set in
insertion order), optional text and a list of children.  The source
qualifies tags with registered namespace URIs; we render the same
qualification as `prefix:tag`, which is a bijective renaming of the
source's Clark notation for the six fixed prefixes. -/

/-- An XML element: tag, attributes, optional text content, children. -/
inductive XmlNode where
  | elem (tag : String) (attrs : List (String × String)) (text : Option String) (children : List XmlNode)
  deriving Repr

/-- Tag of an element. -/
def XmlNode.tag : XmlNode → String
  | .elem t _ _ _ => t

/-- Attributes of an element. -/
def XmlNode.attrs : XmlNode → List (String × String)
  | .elem _ a _ _ => a

/-- Text content of an element. -/
def XmlNode.text : XmlNode → Option String
  | .elem _ _ x _ => x

/-- Children of an element. -/
def XmlNode.children : XmlNode → List XmlNode
  | .elem _ _ _ c => c

/-- `xml_builder._qn`: qualify a tag with its namespace prefix. -/
def qn (pre tag : String) : String := pre ++ ":" ++ tag

/-- Number of elements with the given tag in a list of sibling nodes. -/
def countTag (tag : String) (l : List XmlNode) : Nat :=
  (l.filter (fun n => n.tag == tag)).length

/-- `xml_builder._character_string`: wrap text in a `gco:CharacterString`
element; when the value is `None` the element is still created, empty. -/
def _character_string (text : Option String) : XmlNode :=
  .elem (qn "gco" "CharacterString") [] text []

/-- `xml_builder._optional_element`: a child wrapping the text in a
character string, skipped entirely when the text is `None` or empty. -/
def optional_element (pre tag : String) (text : Option String) : List XmlNode :=
  match text with
  | none => []
  | some s => if s = "" then [] else [.elem (qn pre tag) [] none [_character_string (some s)]]

/-! ## Database rows

One structure per table queried in `db.py`, with the columns the
queries select.  Key columns (`METADATA_ID`, `GROUP_ID`, `CONTACT_ID`,
`CITATION_ID`, `SOURCE_ID`) are modelled as `String`; nullable columns
as `Option`. -/

/-- A row of `ADMIN.METADATA_MAIN` (columns of `fetch_main_record`). -/
structure MainRow where
  metadata_id : String
  group_id : Option String
  title : Option String
  abstract : Option String
  supplemental_information : Option String
  citation_id : Option String
  publication_date : Option PyVal
  status_progress : Option String
  update_frequency : Option String
  security_classification : Option String
  west_bounding_coordinate : Option PyVal
  east_bounding_coordinate : Option PyVal
  north_bounding_coordinate : Option PyVal
  south_bounding_coordinate : Option PyVal
  temporal_date_from : Option PyVal
  temporal_date_to : Option PyVal
  metadata_facing : Option String
  deriving Repr, DecidableEq

/-- A row of `ADMIN.METADATA_GROUPS` (columns of `fetch_group`). -/
structure GroupRow where
  group_id : String
  use_constraint : Option String
  access_constraint : Option String
  purpose : Option String
  contact_id : Option String
  metadata_contact_id : Option String
  attribute_accuracy_report : Option String
  thumbnail : Option String
  deriving Repr, DecidableEq

/-- A row of `ADMIN.METADATA_CONTACTS` (columns of
`fetch_contacts_for_ids`). -/
structure ContactRow where
  contact_id : String
  contact_role : Option String
  individual_name : Option String
  organisation_name : Option String
  position_name : Option String
  voice_phone : Option String
  facsimile_phone : Option String
  delivery_point : Option String
  city : Option String
  administrative_area : Option String
  postal_code : Option String
  country : Option String
  electronic_mail_address : Option String
  hours_of_service : Option String
  contact_instructions : Option String
  deriving Repr, DecidableEq

/-- A row of `ADMIN.METADATA_CITATIONS` (columns of `fetch_citation`
and `fetch_citations_for_ids`). -/
structure CitationRow where
  citation_id : String
  citation_title : Option String
  citation_originator : Option String
  citation_pubdate : Option PyVal
  citation_edition : Option String
  citation_data_form : Option String
  citation_series : Option String
  issue_identification : Option String
  publication_place : Option String
  publisher : Option String
  online_linkage : Option String
  deriving Repr, DecidableEq

/-- A row of `ADMIN.METADATA_ATTRIBUTES` (columns of `fetch_attributes`). -/
structure AttributeRow where
  metadata_id : String
  attribute_name : Option String
  attribute_alias : Option String
  attribute_no : Option Int
  attribute_definition : Option String
  attribute_type : Option String
  attribute_width : Option Int
  attribute_precision : Option Int
  attribute_scale : Option Int
  codeset_name : Option String
  deriving Repr, DecidableEq

/-- A row of `ADMIN.METADATA_KEYWORDS` (columns of `fetch_keywords`). -/
structure KeywordRow where
  metadata_id : String
  keyword_type : Option String
  keyword : Option String
  deriving Repr, DecidableEq

/-- A row of the join `METADATA_MAIN_SOURCE ⋈ METADATA_SOURCES`
returned by `fetch_sources`, in `ms.ID` order. -/
structure SourceRow where
  id : Option Int
  metadata_id : String
  source_id : String
  source_name : Option String
  source_scale : Option String
  source_media : Option String
  source_contribution : Option String
  citation_id : Option String
  deriving Repr, DecidableEq

/-- A row of `ADMIN.METADATA_SOURCE_CITATION`
(columns of `fetch_source_citations`). -/
structure SourceCitationRow where
  source_id : String
  citation_id : String
  deriving Repr, DecidableEq

/-- Look a key up in an association list (a Python `dict.get`). -/
def assocGet {α : Type} (l : List (String × α)) (k : String) : Option α :=
  (l.find? (fun p => p.1 == k)).map (fun p => p.2)

/-! ## Extent builder (`xml_builder._build_extent`) -/

/-- One bounding coordinate element: the tagged element wrapping a
`gco:Decimal` whose text is `str(value)`. -/
def coord_element (tag : String) (v : PyVal) : XmlNode :=
  .elem (qn "gmd" tag) [] none [.elem (qn "gco" "Decimal") [] (some (pyStr v)) []]

/-- The `names` list of `_build_extent`: tag / coordinate pairs in
source order (west, east, south, north). -/
def bbox_entries (main : MainRow) : List (String × Option PyVal) :=
  [("westBoundLongitude", main.west_bounding_coordinate),
   ("eastBoundLongitude", main.east_bounding_coordinate),
   ("southBoundLatitude", main.south_bounding_coordinate),
   ("northBoundLatitude", main.north_bounding_coordinate)]

/-- Children of the `EX_GeographicBoundingBox` element: the loop over
`names` skips any coordinate whose value is `None`. -/
def bbox_children (main : MainRow) : List XmlNode :=
  (bbox_entries main).filterMap (fun p => p.2.map (coord_element p.1))

/-- Children of the `gml:TimePeriod`: begin / end positions, each added
only when its formatted date is truthy. -/
def time_period_children (main : MainRow) : List XmlNode :=
  (if strTruthy (_format_date main.temporal_date_from) then
    [.elem (qn "gml" "beginPosition") [] (_format_date main.temporal_date_from) []]
  else [])
  ++ (if strTruthy (_format_date main.temporal_date_to) then
    [.elem (qn "gml" "endPosition") [] (_format_date main.temporal_date_to) []]
  else [])

/-- The temporal sub-block, emitted only when `start or end` is truthy. -/
def temporal_nodes (main : MainRow) : List XmlNode :=
  if strTruthy (_format_date main.temporal_date_from)
      || strTruthy (_format_date main.temporal_date_to) then
    [.elem (qn "gmd" "temporalElement") [] none
      [.elem (qn "gmd" "EX_TemporalExtent") [] none
        [.elem (qn "gml" "TimePeriod") [] none (time_period_children main)]]]
  else []

/-- `_build_extent`: returns the `gmd:extent` element, or nothing when
every bounding coordinate is `None` (the early `return`). -/
def _build_extent (main : MainRow) : Option XmlNode :=
  if main.west_bounding_coordinate.isSome || main.east_bounding_coordinate.isSome
      || main.south_bounding_coordinate.isSome || main.north_bounding_coordinate.isSome then
    some (.elem (qn "gmd" "extent") [] none
      [.elem (qn "gmd" "EX_Extent") [] none
        ([.elem (qn "gmd" "geographicElement") [] none
            [.elem (qn "gmd" "EX_GeographicBoundingBox") [] none (bbox_children main)]]
          ++ temporal_nodes main)])
  else none

/-! ## Keyword grouping and the identification block
(`xml_builder._build_identification_info`, `_group_keywords_by_type`) -/

/-- Insertion into a Python dict-of-lists
(`grouped.setdefault(key, []).append(item)`): dicts preserve first-seen
key order, and each key's list preserves input order. -/
def dictInsert {α : Type} (acc : List (String × List α)) (k : String) (a : α) :
    List (String × List α) :=
  match acc with
  | [] => [(k, [a])]
  | (k0, l) :: rest =>
    if k0 = k then (k0, l ++ [a]) :: rest else (k0, l) :: dictInsert rest k a

/-- The bucket a key maps to in a grouped dict (empty when absent). -/
def groupGet {α : Type} (l : List (String × List α)) (k : String) : List α :=
  (assocGet l k).getD []

/-- The grouping key `(keyword.get("keyword_type") or "").strip()`:
Python `or` collapses both `None` and `""` to `""` (as `getD ""` does),
then surrounding whitespace is stripped. -/
def keywordGroupKey (kt : Option String) : String := pyStrip (kt.getD "")

/-- `xml_builder._group_keywords_by_type`. -/
def _group_keywords_by_type (keywords : List KeywordRow) :
    List (String × List KeywordRow) :=
  keywords.foldl (fun acc kw => dictInsert acc (keywordGroupKey kw.keyword_type) kw) []

/-- One `gmd:keyword` child. -/
def keyword_child (kw : KeywordRow) : XmlNode :=
  .elem (qn "gmd" "keyword") [] none [_character_string kw.keyword]

/-- The type-classification element, added only for a truthy
(non-empty) keyword group name. -/
def keyword_type_nodes (key : String) : List XmlNode :=
  if key = "" then []
  else
    [.elem (qn "gmd" "type") [] none
      [.elem (qn "gmd" "MD_KeywordTypeCode")
        [("codeList", "http://www.isotc211.org/2005/resources/codeList.xml#MD_KeywordTypeCode"),
         ("codeListValue", key)]
        (some key) []]]

/-- One `gmd:descriptiveKeywords` block for a keyword group. -/
def descriptive_keywords_block (key : String) (kws : List KeywordRow) : XmlNode :=
  .elem (qn "gmd" "descriptiveKeywords") [] none
    [.elem (qn "gmd" "MD_Keywords") [] none
      ((kws.map keyword_child) ++ keyword_type_nodes key)]

/-- The sequence of descriptive-keyword blocks (`if keywords:` loop). -/
def keyword_blocks (keywords : List KeywordRow) : List XmlNode :=
  if keywords.isEmpty then []
  else (_group_keywords_by_type keywords).map (fun p => descriptive_keywords_block p.1 p.2)

/-- The fallback purpose element sourced from
`main.supplemental_information` (the `elif` branch). -/
def supplemental_purpose_nodes (main : MainRow) : List XmlNode :=
  if strTruthy main.supplemental_information then
    [.elem (qn "gmd" "purpose") [] none [_character_string main.supplemental_information]]
  else []

/-- The purpose element: `group["purpose"]` when the group is present
with a truthy purpose, else the supplemental-information fallback. -/
def purpose_nodes (group : Option GroupRow) (main : MainRow) : List XmlNode :=
  match group with
  | some g =>
    if strTruthy g.purpose then
      [.elem (qn "gmd" "purpose") [] none [_character_string g.purpose]]
    else supplemental_purpose_nodes main
  | none => supplemental_purpose_nodes main

/-- The status element, present only for a truthy progress code. -/
def status_nodes (main : MainRow) : List XmlNode :=
  if strTruthy main.status_progress then
    [.elem (qn "gmd" "status") [] none
      [.elem (qn "gmd" "MD_ProgressCode")
        [("codeList", "http://www.isotc211.org/2005/resources/codeList.xml#MD_ProgressCode"),
         ("codeListValue", main.status_progress.getD "")]
        main.status_progress []]]
  else []

/-- `xml_builder._build_constraints`: use / access constraint blocks. -/
def constraint_nodes (group : Option GroupRow) : List XmlNode :=
  match group with
  | none => []
  | some g =>
    (if strTruthy g.use_constraint then
      [.elem (qn "gmd" "resourceConstraints") [] none
        [.elem (qn "gmd" "MD_Constraints") [] none
          [.elem (qn "gmd" "useLimitation") [] none [_character_string g.use_constraint]]]]
    else [])
    ++ (if strTruthy g.access_constraint then
      [.elem (qn "gmd" "resourceConstraints") [] none
        [.elem (qn "gmd" "MD_LegalConstraints") [] none
          [.elem (qn "gmd" "accessConstraints") [] none
            [.elem (qn "gmd" "MD_RestrictionCode")
              [("codeList", "http://standards.iso.org/ittf/PubliclyAvailableStandards/ISO_19139_Schemas/resources/Codelist/ML_gmxCodelists.xml#MD_RestrictionCode"),
               ("codeListValue", g.access_constraint.getD "")]
              g.access_constraint []]]]]
    else [])

/-- `xml_builder._build_spatial_representation`. -/
def spatial_nodes (main : MainRow) : List XmlNode :=
  if strTruthy main.metadata_facing then
    [.elem (qn "gmd" "spatialRepresentationType") [] none
      [.elem (qn "gmd" "MD_SpatialRepresentationTypeCode")
        [("codeList", "http://www.isotc211.org/2005/resources/codeList.xml#MD_SpatialRepresentationTypeCode"),
         ("codeListValue", main.metadata_facing.getD "")]
        main.metadata_facing []]]
  else []

/-- The identification citation title (always wrapped, even when null). -/
def title_element (main : MainRow) : XmlNode :=
  .elem (qn "gmd" "title") [] none [_character_string main.title]

/-- The `gmd:dateType` element with the fixed publication code. -/
def date_type_element : XmlNode :=
  .elem (qn "gmd" "dateType") [] none
    [.elem (qn "gmd" "CI_DateTypeCode")
      [("codeList", "http://www.isotc211.org/2005/resources/codeList.xml#CI_DateTypeCode"),
       ("codeListValue", "publication")]
      (some "publication") []]

/-- Children of the identification `CI_Date`: the inner date value only
when the formatted publication date is truthy, the date-type always. -/
def ci_date_children (c : CitationRow) : List XmlNode :=
  (if strTruthy (_format_date c.citation_pubdate) then
    [.elem (qn "gmd" "date") [] none [_character_string (_format_date c.citation_pubdate)]]
  else [])
  ++ [date_type_element]

/-- The `gmd:date` block of the identification citation. -/
def citation_date_block (c : CitationRow) : XmlNode :=
  .elem (qn "gmd" "date") [] none
    [.elem (qn "gmd" "CI_Date") [] none (ci_date_children c)]

/-- Children of the identification `CI_Citation`: title, then (when the
main citation is present) optional alternate title and the date block. -/
def ci_citation_children (main : MainRow) (citation : Option CitationRow) : List XmlNode :=
  [title_element main]
  ++ (match citation with
      | none => []
      | some c => optional_element "gmd" "alternateTitle" c.citation_title
        ++ [citation_date_block c])

/-- The `gmd:citation` element of the identification block. -/
def citation_element (main : MainRow) (citation : Option CitationRow) : XmlNode :=
  .elem (qn "gmd" "citation") [] none
    [.elem (qn "gmd" "CI_Citation") [] none (ci_citation_children main citation)]

/-- The abstract element (always wrapped, even when null). -/
def abstract_element (main : MainRow) : XmlNode :=
  .elem (qn "gmd" "abstract") [] none [_character_string main.abstract]

/-- Children of `gmd:MD_DataIdentification`, in source order: citation,
abstract, purpose, status, keyword blocks, constraints, spatial
representation, extent. -/
def data_identification_children (main : MainRow) (group : Option GroupRow)
    (citation : Option CitationRow) (keywords : List KeywordRow) : List XmlNode :=
  [citation_element main citation, abstract_element main]
  ++ purpose_nodes group main
  ++ status_nodes main
  ++ keyword_blocks keywords
  ++ constraint_nodes group
  ++ spatial_nodes main
  ++ (_build_extent main).toList

/-! ## Data quality builder
(`xml_builder._build_data_quality`, `_build_ci_citation`) -/

/-- Python `x or default` on an optional string: `None` and the empty
string fall back to the default. -/
def strOr (o : Option String) (dflt : String) : String :=
  match o with
  | some s => if s = "" then dflt else s
  | none => dflt

/-- `xml_builder._build_ci_citation`: title, optional publication-date
block (gated on the raw publication-date value), optional online
resource. -/
def _build_ci_citation (c : CitationRow) : XmlNode :=
  .elem (qn "gmd" "CI_Citation") [] none
    ([.elem (qn "gmd" "title") [] none [_character_string c.citation_title]]
     ++ (if pyTruthy c.citation_pubdate then
          [.elem (qn "gmd" "date") [] none
            [.elem (qn "gmd" "CI_Date") [] none
              [.elem (qn "gmd" "date") [] none
                [_character_string (_format_date c.citation_pubdate)],
               date_type_element]]]
        else [])
     ++ (if strTruthy c.online_linkage then
          [.elem (qn "gmd" "onlineResource") [] none
            [.elem (qn "gmd" "CI_OnlineResource") [] none
              [.elem (qn "gmd" "linkage") [] none
                [.elem (qn "gmd" "URL") [] c.online_linkage []]]]]
        else []))

/-- Own-field children of a lineage `LI_Source`: a description from the
source's contribution text, and a scale block gated on source-name
presence (a quirk of the original mapping, preserved). -/
def own_source_children (s : SourceRow) : List XmlNode :=
  (if strTruthy s.source_contribution then
    [.elem (qn "gmd" "description") [] none [_character_string s.source_contribution]]
  else [])
  ++ (if strTruthy s.source_name then
    [.elem (qn "gmd" "sourceScale") [] none
      [.elem (qn "gmd" "MD_RepresentativeFraction") [] none
        [.elem (qn "gmd" "denominator") [] none [_character_string s.source_scale]]]]
  else [])

/-- The citation identifiers linked to a source: its own truthy
citation identifier first, then every link row's identifier. -/
def linked_citation_ids (scmap : List (String × List SourceCitationRow))
    (s : SourceRow) : List String :=
  (match s.citation_id with
   | some cid => if cid = "" then [] else [cid]
   | none => [])
  ++ (groupGet scmap s.source_id).map (fun r => r.citation_id)

/-- The `sourceCitation` sub-elements: each linked identifier is
resolved through the citation lookup; unresolved identifiers are
skipped without error. -/
def source_citation_elems (lookup : List (String × CitationRow))
    (scmap : List (String × List SourceCitationRow)) (s : SourceRow) : List XmlNode :=
  (linked_citation_ids scmap s).filterMap (fun cid =>
    (assocGet lookup cid).map (fun c =>
      .elem (qn "gmd" "sourceCitation") [] none [_build_ci_citation c]))

/-- Children of one lineage `LI_Source`. -/
def li_source_children (lookup : List (String × CitationRow))
    (scmap : List (String × List SourceCitationRow)) (s : SourceRow) : List XmlNode :=
  own_source_children s ++ source_citation_elems lookup scmap s

/-- One `gmd:source` block of the lineage. -/
def source_block (lookup : List (String × CitationRow))
    (scmap : List (String × List SourceCitationRow)) (s : SourceRow) : XmlNode :=
  .elem (qn "gmd" "source") [] none
    [.elem (qn "gmd" "LI_Source") [] none (li_source_children lookup scmap s)]

/-- The source blocks of `LI_Lineage` (the `if sources:` loop). -/
def lineage_source_blocks (lookup : List (String × CitationRow))
    (scmap : List (String × List SourceCitationRow)) (sources : List SourceRow) :
    List XmlNode :=
  if sources.isEmpty then [] else sources.map (source_block lookup scmap)

/-- `xml_builder._build_data_quality`: fixed dataset scope, a
conformance report whose explanation falls back to a fixed sentence and
whose pass flag is always true, then the lineage with its sources. -/
def _build_data_quality (group : Option GroupRow) (sources : List SourceRow)
    (lookup : List (String × CitationRow))
    (scmap : List (String × List SourceCitationRow)) : XmlNode :=
  .elem (qn "gmd" "dataQualityInfo") [] none
    [.elem (qn "gmd" "DQ_DataQuality") [] none
      [.elem (qn "gmd" "scope") [] none
        [.elem (qn "gmd" "DQ_Scope") [] none
          [.elem (qn "gmd" "level") [] none
            [.elem (qn "gmd" "MD_ScopeCode")
              [("codeList", "http://www.isotc211.org/2005/resources/codeList.xml#MD_ScopeCode"),
               ("codeListValue", "dataset")]
              (some "dataset") []]]],
       .elem (qn "gmd" "report") [] none
        [.elem (qn "gmd" "DQ_DomainConsistency") [] none
          [.elem (qn "gmd" "result") [] none
            [.elem (qn "gmd" "DQ_ConformanceResult") [] none
              [.elem (qn "gmd" "explanation") [] none
                [_character_string (some (strOr
                  (group.bind (fun g => g.attribute_accuracy_report))
                  "No attribute accuracy report supplied."))],
               .elem (qn "gmd" "pass") [] none
                [.elem (qn "gco" "Boolean") [] (some "true") []]]]]],
       .elem (qn "gmd" "lineage") [] none
        [.elem (qn "gmd" "LI_Lineage") [] none
          (lineage_source_blocks lookup scmap sources)]]]

/-! Demonstration data for the spec's concrete scenarios. -/

/-- The dangling-citation scenario source `{source_id: "S1",
citation_id: "C9"}`. -/
def srcS1 : SourceRow :=
  { id := some 1, metadata_id := "M1", source_id := "S1",
    source_name := some "Survey", source_scale := some "10000",
    source_media := none, source_contribution := some "Base mapping",
    citation_id := some "C9" }

/-- The dangling-citation scenario source list. -/
def demoSources : List SourceRow := [srcS1]

/-- A citation lookup lacking the identifier "C9". -/
def demoLookup : List (String × CitationRow) := []

/-- An empty source-citation link map. -/
def demoScmap : List (String × List SourceCitationRow) := []

/-! ## Record store and bundle assembly (`db.py`)

The relational store is modelled as in-memory tables, one list per
table, each list in the order the corresponding query returns rows.
Every fetch function returns its result together with the list of
queries it issued, so that batching and deduplication contracts can be
stated about the query log. -/

/-- The in-memory relational store. -/
structure Store where
  metadata_main : List MainRow
  metadata_groups : List GroupRow
  metadata_contacts : List ContactRow
  metadata_citations : List CitationRow
  metadata_attributes : List AttributeRow
  metadata_keywords : List KeywordRow
  metadata_sources : List SourceRow
  metadata_source_citation : List SourceCitationRow
  deriving Repr

/-- One parametrised read query issued against the store. -/
inductive Query where
  | mainQ (metadata_id : String)
  | groupQ (group_id : String)
  | citationQ (citation_id : String)
  | contactsQ (contact_ids : List String)
  | attributesQ (metadata_id : String)
  | keywordsQ (metadata_id : String)
  | sourcesQ (metadata_id : String)
  | sourceCitationsQ (source_ids : List String)
  | citationsForIdsQ (citation_ids : List String)
  deriving Repr, DecidableEq

/-- Is this a batched contact lookup? -/
def Query.isContactsQ : Query → Bool
  | .contactsQ _ => true
  | _ => false

/-- `db.fetch_main_record`: the first row matching the identifier. -/
def fetch_main_record (st : Store) (metadata_id : String) :
    Option MainRow × List Query :=
  (st.metadata_main.find? (fun r => r.metadata_id == metadata_id),
   [.mainQ metadata_id])

/-- `db.fetch_group`. -/
def fetch_group (st : Store) (group_id : String) : Option GroupRow × List Query :=
  (st.metadata_groups.find? (fun r => r.group_id == group_id), [.groupQ group_id])

/-- `db.fetch_citation`. -/
def fetch_citation (st : Store) (citation_id : String) :
    Option CitationRow × List Query :=
  (st.metadata_citations.find? (fun r => r.citation_id == citation_id),
   [.citationQ citation_id])

/-- `db.fetch_contacts_for_ids`: with no identifiers, an empty mapping
and no query; otherwise one `IN`-clause query whose matching rows are
keyed by contact identifier. -/
def fetch_contacts_for_ids (st : Store) (contact_ids : List String) :
    List (String × ContactRow) × List Query :=
  if contact_ids.isEmpty then ([], [])
  else
    ((st.metadata_contacts.filter (fun r => contact_ids.contains r.contact_id)).map
        (fun r => (r.contact_id, r)),
     [.contactsQ contact_ids])

/-- `db.fetch_attributes`. -/
def fetch_attributes (st : Store) (metadata_id : String) :
    List AttributeRow × List Query :=
  (st.metadata_attributes.filter (fun r => r.metadata_id == metadata_id),
   [.attributesQ metadata_id])

/-- `db.fetch_keywords`. -/
def fetch_keywords (st : Store) (metadata_id : String) :
    List KeywordRow × List Query :=
  (st.metadata_keywords.filter (fun r => r.metadata_id == metadata_id),
   [.keywordsQ metadata_id])

/-- `db.fetch_sources` (the join, pre-materialised in the store). -/
def fetch_sources (st : Store) (metadata_id : String) :
    List SourceRow × List Query :=
  (st.metadata_sources.filter (fun r => r.metadata_id == metadata_id),
   [.sourcesQ metadata_id])

/-- `db.fetch_source_citations`: with no identifiers, an empty mapping
and no query; otherwise one `IN`-clause query whose rows are grouped by
source identifier. -/
def fetch_source_citations (st : Store) (source_ids : List String) :
    List (String × List SourceCitationRow) × List Query :=
  if source_ids.isEmpty then ([], [])
  else
    ((st.metadata_source_citation.filter
        (fun r => source_ids.contains r.source_id)).foldl
        (fun acc r => dictInsert acc r.source_id r) [],
     [.sourceCitationsQ source_ids])

/-- `db.fetch_citations_for_ids`: with no identifiers, an empty mapping
and no query; otherwise one `IN`-clause query keyed by citation
identifier. -/
def fetch_citations_for_ids (st : Store) (citation_ids : List String) :
    List (String × CitationRow) × List Query :=
  if citation_ids.isEmpty then ([], [])
  else
    ((st.metadata_citations.filter
        (fun r => citation_ids.contains r.citation_id)).map
        (fun r => (r.citation_id, r)),
     [.citationsForIdsQ citation_ids])

/-- `list(dict.fromkeys(ids))`: deduplicate preserving first-seen order. -/
def dedupFirst (l : List String) : List String :=
  l.foldl (fun acc x => if acc.contains x then acc else acc ++ [x]) []

/-- Insertion into an ascending list (stable). -/
def insertAsc (x : String) : List String → List String
  | [] => [x]
  | y :: ys => if x < y then x :: y :: ys else y :: insertAsc x ys

/-- Insertion sort, modelling Python `sorted` on strings. -/
def sortStrings : List String → List String
  | [] => []
  | x :: xs => insertAsc x (sortStrings xs)

/-- Python `sorted(set(...))`: the distinct elements in ascending order. -/
def sortedUnique (l : List String) : List String :=
  sortStrings (dedupFirst l)

/-- The aggregated metadata bundle (`db.fetch_metadata_bundle`'s dict). -/
structure Bundle where
  metadata_id : String
  main : MainRow
  group : Option GroupRow
  citation : Option CitationRow
  group_contact : Option ContactRow
  metadata_contact : Option ContactRow
  attributes : List AttributeRow
  keywords : List KeywordRow
  sources : List SourceRow
  source_citations : List (String × List SourceCitationRow)
  citation_lookup : List (String × CitationRow)
  deriving Repr, DecidableEq

/-- The not-found message raised when the primary record is missing. -/
def notFoundMessage (metadata_id : String) : String :=
  "Metadata ID " ++ metadata_id ++ " not found in METADATA_MAIN."

/-- Step 2: `if main.get("group_id"): fetch_group(...)` (truthiness). -/
def groupStep (st : Store) (main : MainRow) : Option GroupRow × List Query :=
  match main.group_id with
  | some gid => if gid = "" then (none, []) else fetch_group st gid
  | none => (none, [])

/-- Step 3: `if main.get("citation_id"): fetch_citation(...)`. -/
def citationStep (st : Store) (main : MainRow) : Option CitationRow × List Query :=
  match main.citation_id with
  | some cid => if cid = "" then (none, []) else fetch_citation st cid
  | none => (none, [])

/-- Step 4a: collect candidate contact identifiers from the group
(`is not None` checks, in source order). -/
def contactIdsOf (group : Option GroupRow) : List String :=
  match group with
  | some g =>
    (match g.contact_id with | some c => [c] | none => [])
      ++ (match g.metadata_contact_id with | some c => [c] | none => [])
  | none => []

/-- Step 4b: `if contact_ids:` deduplicate preserving first-seen order
and perform one batched fetch. -/
def contactsStep (st : Store) (group : Option GroupRow) :
    List (String × ContactRow) × List Query :=
  let ids := contactIdsOf group
  if ids.isEmpty then ([], [])
  else fetch_contacts_for_ids st (dedupFirst ids)

/-- Step 4c: distribute the lookup back to one contact slot
(`contact_lookup.get(...)` under an `is not None` guard). -/
def resolveContact (lookup : List (String × ContactRow))
    (idOpt : Option String) : Option ContactRow :=
  match idOpt with
  | some c => assocGet lookup c
  | none => none

/-- Step 6: when sources were fetched, fetch their link rows and batch
resolve the union of every referenced citation identifier (Python
builds a set and sorts it). -/
def sourcesCitationStep (st : Store) (sources : List SourceRow) :
    (List (String × List SourceCitationRow) × List (String × CitationRow)) × List Query :=
  if sources.isEmpty then (([], []), [])
  else
    let source_ids := sources.map (fun s => s.source_id)
    let scPair := fetch_source_citations st source_ids
    let fromSources := (sources.filter (fun s => strTruthy s.citation_id)).map
      (fun s => s.citation_id.getD "")
    let fromRows := (scPair.1.map (fun p => p.2.map
      (fun r => r.citation_id))).flatten
    let clPair := fetch_citations_for_ids st (sortedUnique (fromSources ++ fromRows))
    ((scPair.1, clPair.1), scPair.2 ++ clPair.2)

/-- `db.fetch_metadata_bundle`, translated step for step; the result is
paired with the full query log, and a missing primary record yields the
`LookupError` with only the first query issued. -/
def fetch_metadata_bundle (st : Store) (metadata_id : String)
    (include_sources include_keywords : Bool) :
    Except String Bundle × List Query :=
  match fetch_main_record st metadata_id with
  | (none, q1) => (.error (notFoundMessage metadata_id), q1)
  | (some main, q1) =>
    let gp := groupStep st main
    let cp := citationStep st main
    let kp := contactsStep st gp.1
    let ap := fetch_attributes st metadata_id
    let wp := if include_keywords then fetch_keywords st metadata_id
      else ([], [])
    let sp := if include_sources then fetch_sources st metadata_id
      else ([], [])
    let xp := sourcesCitationStep st sp.1
    (.ok
      { metadata_id := metadata_id
        main := main
        group := gp.1
        citation := cp.1
        group_contact :=
          match gp.1 with
          | some g => resolveContact kp.1 g.contact_id
          | none => none
        metadata_contact :=
          match gp.1 with
          | some g => resolveContact kp.1 g.metadata_contact_id
          | none => none
        attributes := ap.1
        keywords := wp.1
        sources := sp.1
        source_citations := xp.1.1
        citation_lookup := xp.1.2 },
     q1 ++ gp.2 ++ cp.2 ++ kp.2 ++ ap.2 ++ wp.2 ++ sp.2 ++ xp.2)

/-! ## Full document assembly (`xml_builder.build_metadata_tree`) -/

/-- `BuildOptions`, with the source's defaults; the date stamp is a
native date when supplied. -/
structure BuildOptions where
  language_code : String := "eng"
  character_set : String := "utf8"
  hierarchy_level : String := "dataset"
  date_stamp : Option PyDate := none
  contact_name : Option String := none
  contact_organisation : Option String := none
  contact_email : Option String := none
  deriving Repr

/-- `_build_file_identifier`. -/
def _build_file_identifier (metadata_id : String) : XmlNode :=
  .elem (qn "gmd" "fileIdentifier") [] none [_character_string (some metadata_id)]

/-- `_build_language`. -/
def _build_language (language_code : String) : XmlNode :=
  .elem (qn "gmd" "language") [] none
    [.elem (qn "gmd" "LanguageCode")
      [("codeList", "http://standards.iso.org/ittf/PubliclyAvailableStandards/ISO_19139_Schemas/resources/Codelist/ML_gmxCodelists.xml#LanguageCode"),
       ("codeListValue", language_code)]
      (some language_code) []]

/-- `_build_character_set`. -/
def _build_character_set (character_set : String) : XmlNode :=
  .elem (qn "gmd" "characterSet") [] none
    [.elem (qn "gmd" "MD_CharacterSetCode")
      [("codeList", "http://www.isotc211.org/2005/resources/codeList.xml#MD_CharacterSetCode"),
       ("codeListValue", character_set)]
      none []]

/-- `_build_hierarchy_level`. -/
def _build_hierarchy_level (hierarchy_level : String) : XmlNode :=
  .elem (qn "gmd" "hierarchyLevel") [] none
    [.elem (qn "gmd" "MD_ScopeCode")
      [("codeList", "http://standards.iso.org/ittf/PubliclyAvailableStandards/ISO_19139_Schemas/resources/Codelist/ML_gmxCodelists.xml#MD_ScopeCode"),
       ("codeListValue", hierarchy_level)]
      (some hierarchy_level) []]

/-- `_build_contact`: the responsible-party block, emitted even when
every override is empty; sub-elements gated on truthy options. -/
def _build_contact (options : BuildOptions) : XmlNode :=
  .elem (qn "gmd" "contact") [] none
    [.elem (qn "gmd" "CI_ResponsibleParty") [] none
      ((if strTruthy options.contact_name then
          [.elem (qn "gmd" "individualName") [] none
            [_character_string options.contact_name]]
        else [])
       ++ (if strTruthy options.contact_organisation then
          [.elem (qn "gmd" "organisationName") [] none
            [_character_string options.contact_organisation]]
        else [])
       ++ (if strTruthy options.contact_email then
          [.elem (qn "gmd" "contactInfo") [] none
            [.elem (qn "gmd" "CI_Contact") [] none
              [.elem (qn "gmd" "address") [] none
                [.elem (qn "gmd" "CI_Address") [] none
                  [.elem (qn "gmd" "electronicMailAddress") [] none
                    [_character_string options.contact_email]]]]]]
        else [])
       ++ [.elem (qn "gmd" "role") [] none
            [.elem (qn "gmd" "CI_RoleCode")
              [("codeList", "http://www.isotc211.org/2005/resources/codeList.xml#CI_RoleCode"),
               ("codeListValue", "pointOfContact")]
              (some "pointOfContact") []]])]

/-- `_build_date_stamp`; `today` stands for `date.today()` at build
time, used when no explicit date stamp is supplied. -/
def _build_date_stamp (date_stamp : Option PyDate) (today : PyDate) : XmlNode :=
  .elem (qn "gmd" "dateStamp") [] none
    [.elem (qn "gco" "Date") [] (some (date_stamp.getD today).isoformat) []]

/-- `_build_reference_system`: a fixed constant block. -/
def _build_reference_system : XmlNode :=
  .elem (qn "gmd" "referenceSystemInfo") [] none
    [.elem (qn "gmd" "MD_ReferenceSystem") [] none
      [.elem (qn "gmd" "referenceSystemIdentifier") [] none
        [.elem (qn "gmd" "RS_Identifier") [] none
          [.elem (qn "gmd" "code") [] none
            [_character_string (some "British National Grid")]]]]]

/-- `_build_identification_info` as applied to a bundle. -/
def _build_identification_info (b : Bundle) : XmlNode :=
  .elem (qn "gmd" "identificationInfo") [] none
    [.elem (qn "gmd" "MD_DataIdentification") [] none
      (data_identification_children b.main b.group b.citation b.keywords)]

/-- `_build_distribution`: format name falls back to "Unknown", format
version from a truthy citation title. -/
def _build_distribution (b : Bundle) : XmlNode :=
  .elem (qn "gmd" "distributionInfo") [] none
    [.elem (qn "gmd" "MD_Distribution") [] none
      [.elem (qn "gmd" "distributionFormat") [] none
        [.elem (qn "gmd" "MD_Format") [] none
          ([.elem (qn "gmd" "name") [] none
              [_character_string (some (strOr
                (b.citation.bind (fun c => c.citation_data_form)) "Unknown"))]]
           ++ (match b.citation with
               | some c =>
                 if strTruthy c.citation_title then
                   [.elem (qn "gmd" "version") [] none
                     [_character_string c.citation_title]]
                 else []
               | none => []))]]]

/-- The `width= / precision= / scale=` detail parts, in source order. -/
def attribute_detail_parts (a : AttributeRow) : List String :=
  (match a.attribute_width with
   | some w => ["width=" ++ toString w]
   | none => [])
  ++ (match a.attribute_precision with
   | some p => ["precision=" ++ toString p]
   | none => [])
  ++ (match a.attribute_scale with
   | some sc => ["scale=" ++ toString sc]
   | none => [])

/-- One `extendedElementInformation` entry of the extension block. -/
def extended_element_info (a : AttributeRow) : XmlNode :=
  .elem (qn "gmd" "extendedElementInformation") [] none
    (optional_element "gmd" "name" a.attribute_name
     ++ optional_element "gmd" "shortName" a.attribute_alias
     ++ optional_element "gmd" "definition" a.attribute_definition
     ++ optional_element "gmd" "condition" a.codeset_name
     ++ (if strTruthy a.attribute_type then
          [.elem (qn "gmd" "dataType") [] none [_character_string a.attribute_type]]
        else [])
     ++ (if (attribute_detail_parts a).isEmpty then []
        else optional_element "gmd" "description"
          (some (String.intercalate "; " (attribute_detail_parts a)))))

/-- `_build_extension_info`, emitted only for a non-empty attribute
list. -/
def _build_extension_info (b : Bundle) : List XmlNode :=
  if b.attributes.isEmpty then []
  else
    [.elem (qn "gmd" "metadataExtensionInfo") [] none
      [.elem (qn "gmd" "MD_MetadataExtensionInformation") [] none
        (b.attributes.map extended_element_info)]]

/-- `build_metadata_tree`: the fixed sequence of sub-builders appending
to the `gmd:MD_Metadata` root. -/
def build_metadata_tree (b : Bundle) (options : BuildOptions) (today : PyDate) :
    XmlNode :=
  .elem (qn "gmd" "MD_Metadata") [] none
    ([_build_file_identifier b.metadata_id,
      _build_language options.language_code,
      _build_character_set options.character_set,
      _build_hierarchy_level options.hierarchy_level,
      _build_contact options,
      _build_date_stamp options.date_stamp today,
      _build_reference_system,
      _build_identification_info b,
      _build_distribution b,
      _build_data_quality b.group b.sources b.citation_lookup b.source_citations]
     ++ _build_extension_info b)

/-! ## Quote normalisation (`cleanup.py`)

`normalise_quotes` is `str.translate` over `_NORMALISATION_MAP`; every
replacement is a single ASCII character, so the translation is a
character-wise map.  Quote-like characters are written by code point,
mirroring the source's escape notation. -/

/-- `cleanup._NORMALISATION_MAP`, entry for entry in source order
(39 is the ASCII apostrophe, 34 the ASCII double quote). -/
def _NORMALISATION_MAP : List (Char × Char) :=
  [(Char.ofNat 0x2018, Char.ofNat 39), (Char.ofNat 0x2019, Char.ofNat 39),
   (Char.ofNat 0x201a, Char.ofNat 39), (Char.ofNat 0x201b, Char.ofNat 39),
   (Char.ofNat 0x2032, Char.ofNat 39), (Char.ofNat 0x2035, Char.ofNat 39),
   (Char.ofNat 0x0060, Char.ofNat 39), (Char.ofNat 0x00b4, Char.ofNat 39),
   (Char.ofNat 0x02bb, Char.ofNat 39), (Char.ofNat 0x02bc, Char.ofNat 39),
   (Char.ofNat 0x275b, Char.ofNat 39), (Char.ofNat 0x275c, Char.ofNat 39),
   (Char.ofNat 0x275f, Char.ofNat 39), (Char.ofNat 0x2760, Char.ofNat 39),
   (Char.ofNat 0x201c, Char.ofNat 34), (Char.ofNat 0x201d, Char.ofNat 34),
   (Char.ofNat 0x201e, Char.ofNat 34), (Char.ofNat 0x201f, Char.ofNat 34),
   (Char.ofNat 0x2033, Char.ofNat 34), (Char.ofNat 0x2036, Char.ofNat 34),
   (Char.ofNat 0x00ab, Char.ofNat 34), (Char.ofNat 0x00bb, Char.ofNat 34),
   (Char.ofNat 0x02dd, Char.ofNat 34), (Char.ofNat 0x275d, Char.ofNat 34),
   (Char.ofNat 0x275e, Char.ofNat 34), (Char.ofNat 0x301d, Char.ofNat 34),
   (Char.ofNat 0x301e, Char.ofNat 34), (Char.ofNat 0x301f, Char.ofNat 34),
   (Char.ofNat 0x00bf, Char.ofNat 39)]

/-- Translate one character through the table; identity when absent. -/
def translateChar (c : Char) : Char :=
  match _NORMALISATION_MAP.find? (fun p => p.1 == c) with
  | some p => p.2
  | none => c

/-- `cleanup.normalise_quotes`. -/
def normalise_quotes (s : String) : String :=
  String.mk (s.data.map translateChar)

/-- A string holding only the ASCII grave accent (backtick), U+0060. -/
def backtickStr : String := String.mk [Char.ofNat 0x60]

/-- The scenario input `"It’s a farmer‘s field."`. -/
def demoSmart : String :=
  "It" ++ (Char.ofNat 0x2019).toString ++ "s a farmer"
    ++ (Char.ofNat 0x2018).toString ++ "s field."

/-- The scenario's expected output with ASCII apostrophes. -/
def demoExpectedAscii : String :=
  "It" ++ (Char.ofNat 39).toString ++ "s a farmer"
    ++ (Char.ofNat 39).toString ++ "s field."

/-- A store with no rows at all. -/
def emptyStore : Store :=
  { metadata_main := [], metadata_groups := [], metadata_contacts := [],
    metadata_citations := [], metadata_attributes := [], metadata_keywords := [],
    metadata_sources := [], metadata_source_citation := [] }

/-- A minimal main record referencing group G1. -/
def mainM1 : MainRow :=
  { metadata_id := "M1", group_id := some "G1", title := some "Soil Map",
    abstract := none, supplemental_information := none, citation_id := none,
    publication_date := none, status_progress := none, update_frequency := none,
    security_classification := none, west_bounding_coordinate := none,
    east_bounding_coordinate := none, north_bounding_coordinate := none,
    south_bounding_coordinate := none, temporal_date_from := none,
    temporal_date_to := none, metadata_facing := none }

/-- A group whose contact and metadata contact share one identifier. -/
def groupG1 : GroupRow :=
  { group_id := "G1", use_constraint := none, access_constraint := none,
    purpose := none, contact_id := some "P1", metadata_contact_id := some "P1",
    attribute_accuracy_report := none, thumbnail := none }

/-- The shared contact record P1. -/
def contactP1 : ContactRow :=
  { contact_id := "P1", contact_role := none, individual_name := some "Pat",
    organisation_name := none, position_name := none, voice_phone := none,
    facsimile_phone := none, delivery_point := none, city := none,
    administrative_area := none, postal_code := none, country := none,
    electronic_mail_address := none, hours_of_service := none,
    contact_instructions := none }

/-- A store holding M1, its group and the shared contact. -/
def demoStore : Store :=
  { metadata_main := [mainM1], metadata_groups := [groupG1],
    metadata_contacts := [contactP1], metadata_citations := [],
    metadata_attributes := [], metadata_keywords := [],
    metadata_sources := [], metadata_source_citation := [] }

/-- The bundle `fetch_metadata_bundle` assembles for M1 on `demoStore`. -/
def demoBundle : Bundle :=
  { metadata_id := "M1", main := mainM1, group := some groupG1,
    citation := none, group_contact := some contactP1,
    metadata_contact := some contactP1, attributes := [], keywords := [],
    sources := [], source_citations := [], citation_lookup := [] }

/-- The query log of that assembly. -/
def demoLog : List Query :=
  [.mainQ "M1", .groupQ "G1", .contactsQ ["P1"], .attributesQ "M1",
   .keywordsQ "M1", .sourcesQ "M1"]

/-- Scenario keyword `{type: "theme", keyword: "soil"}`. -/
def kwSoil : KeywordRow :=
  { metadata_id := "M1", keyword_type := some "theme", keyword := some "soil" }

/-- Scenario keyword `{type: "theme", keyword: "erosion"}`. -/
def kwErosion : KeywordRow :=
  { metadata_id := "M1", keyword_type := some "theme", keyword := some "erosion" }

/-- Scenario keyword `{type: "place", keyword: "England"}`. -/
def kwEngland : KeywordRow :=
  { metadata_id := "M1", keyword_type := some "place", keyword := some "England" }

/-- The keyword-grouping scenario input list. -/
def demoKeywords : List KeywordRow := [kwSoil, kwErosion, kwEngland]

/-- A keyword whose type carries surrounding whitespace. -/
def kwSpacedTheme : KeywordRow :=
  { metadata_id := "M1", keyword_type := some " theme ", keyword := some "soils" }

end LandIS

namespace LandIS

/-- The spec claims a native date-time renders with its time-of-day
dropped; evaluating the embedded `_format_date` at
`datetime(2020, 1, 2, 3, 4, 5)` shows the code keeps the time-of-day
(the `isinstance(value, date)` branch fires first because `datetime`
subclasses `date`), while a plain `date(2020, 1, 2)` renders as claimed. -/
theorem format_date_datetime_keeps_time :
    _format_date (some (.vdatetime ⟨2020, 1, 2⟩ 3 4 5)) = some "2020-01-02T03:04:05"
      ∧ _format_date (some (.vdate ⟨2020, 1, 2⟩)) = some "2020-01-02"
      ∧ ("2020-01-02T03:04:05" : String) ≠ "2020-01-02" := by
  refine ⟨rfl, rfl, by decide⟩

/-- Helper: a concatenation around a non-empty middle piece is non-empty. -/
theorem append_mid_ne_empty (a c b : String) (hc : 0 < c.length) : a ++ c ++ b ≠ "" := by
  intro h
  have h2 := congrArg String.length h
  simp only [String.length_append] at h2
  have h0 : ("" : String).length = 0 := rfl
  omega

/-- An ISO calendar date is never the empty string. -/
theorem PyDate.isoformat_ne_empty (d : PyDate) : d.isoformat ≠ "" :=
  append_mid_ne_empty _ "-" _ (by decide)

/-- An ISO date-time is never the empty string. -/
theorem isoformat_datetime_ne_empty (d : PyDate) (h mi s : Nat) :
    PyVal.isoformat (.vdatetime d h mi s) ≠ "" :=
  append_mid_ne_empty _ ":" _ (by decide)

/-- The formatted date is truthy exactly when it exists: `_format_date`
never produces the empty string (it returns `None` instead). -/
theorem strTruthy_format_date (v : Option PyVal) :
    strTruthy (_format_date v) = (_format_date v).isSome := by
  match v with
  | none => rfl
  | some (.vdate d) =>
    simp [_format_date, isinstance_date, strTruthy, PyVal.isoformat]
    exact PyDate.isoformat_ne_empty d
  | some (.vdatetime d h mi s) =>
    simp [_format_date, isinstance_date, strTruthy]
    exact isoformat_datetime_ne_empty d h mi s
  | some (.vstr s) =>
    by_cases h : pyStrip s = "" <;>
      simp [_format_date, isinstance_date, isinstance_datetime, pyStr, strTruthy, h]
  | some (.vint n) =>
    by_cases h : pyStrip (toString n) = "" <;>
      simp [_format_date, isinstance_date, isinstance_datetime, pyStr, strTruthy, h]

/-- Claim C2: the bounding-box block in the output of `build` appears
exactly when at least one of the four bounding coordinates of the main
record is non-null; each of the four coordinate elements (west, east,
south, north) is present exactly when its own value is non-null; the
temporal sub-block appears exactly when at least one of the normalised
temporal from/to dates is present, with the begin and end child
elements each independently present exactly when its own normalised
date is present. -/
theorem extent_block_conditionals (main : MainRow) :
    ((_build_extent main).isSome ↔
      (main.west_bounding_coordinate.isSome ∨ main.east_bounding_coordinate.isSome
        ∨ main.south_bounding_coordinate.isSome ∨ main.north_bounding_coordinate.isSome))
    ∧ countTag (qn "gmd" "westBoundLongitude") (bbox_children main)
        = (if main.west_bounding_coordinate.isSome then 1 else 0)
    ∧ countTag (qn "gmd" "eastBoundLongitude") (bbox_children main)
        = (if main.east_bounding_coordinate.isSome then 1 else 0)
    ∧ countTag (qn "gmd" "southBoundLatitude") (bbox_children main)
        = (if main.south_bounding_coordinate.isSome then 1 else 0)
    ∧ countTag (qn "gmd" "northBoundLatitude") (bbox_children main)
        = (if main.north_bounding_coordinate.isSome then 1 else 0)
    ∧ (temporal_nodes main ≠ [] ↔
        ((_format_date main.temporal_date_from).isSome
          ∨ (_format_date main.temporal_date_to).isSome))
    ∧ countTag (qn "gml" "beginPosition") (time_period_children main)
        = (if (_format_date main.temporal_date_from).isSome then 1 else 0)
    ∧ countTag (qn "gml" "endPosition") (time_period_children main)
        = (if (_format_date main.temporal_date_to).isSome then 1 else 0) := by
  obtain ⟨mid, gid, ti, ab, si, ci, pd, sp, uf, sc, w, e, no, so, tf, tt, mf⟩ := main
  refine ⟨?_, ?_, ?_, ?_, ?_, ?_, ?_, ?_⟩
  · unfold _build_extent
    split <;> simp_all
    tauto
  · cases w <;> cases e <;> cases so <;> cases no <;>
      simp [bbox_children, bbox_entries, coord_element, countTag, XmlNode.tag, qn]
  · cases w <;> cases e <;> cases so <;> cases no <;>
      simp [bbox_children, bbox_entries, coord_element, countTag, XmlNode.tag, qn]
  · cases w <;> cases e <;> cases so <;> cases no <;>
      simp [bbox_children, bbox_entries, coord_element, countTag, XmlNode.tag, qn]
  · cases w <;> cases e <;> cases so <;> cases no <;>
      simp [bbox_children, bbox_entries, coord_element, countTag, XmlNode.tag, qn]
  · unfold temporal_nodes
    rw [strTruthy_format_date, strTruthy_format_date]
    split <;> simp_all
  · unfold time_period_children
    rw [strTruthy_format_date, strTruthy_format_date]
    rcases h1 : _format_date tf with _ | s1 <;> rcases h2 : _format_date tt with _ | s2 <;>
      simp [h1, h2, countTag, XmlNode.tag, qn]
  · unfold time_period_children
    rw [strTruthy_format_date, strTruthy_format_date]
    rcases h1 : _format_date tf with _ | s1 <;> rcases h2 : _format_date tt with _ | s2 <;>
      simp [h1, h2, countTag, XmlNode.tag, qn]

/-- Inserting under a key appends to exactly that key's bucket. -/
theorem groupGet_dictInsert_same {α : Type} (acc : List (String × List α))
    (k : String) (a : α) :
    groupGet (dictInsert acc k a) k = groupGet acc k ++ [a] := by
  induction acc with
  | nil => simp [dictInsert, groupGet, assocGet]
  | cons p rest ih =>
    obtain ⟨k0, l⟩ := p
    by_cases h : k0 = k
    · subst h
      simp [dictInsert, groupGet, assocGet]
    · have hb : (k0 == k) = false := by simp [h]
      simp only [dictInsert, if_neg h]
      simpa [groupGet, assocGet, List.find?, hb] using ih

/-- Inserting under one key leaves the other keys' buckets unchanged. -/
theorem groupGet_dictInsert_other {α : Type} (acc : List (String × List α))
    (k k2 : String) (a : α) (h : ¬ k2 = k) :
    groupGet (dictInsert acc k a) k2 = groupGet acc k2 := by
  induction acc with
  | nil =>
    have hb : (k == k2) = false := by simp [Ne.symm h]
    simp [dictInsert, groupGet, assocGet, List.find?, hb]
  | cons p rest ih =>
    obtain ⟨k0, l⟩ := p
    by_cases h0 : k0 = k
    · subst h0
      have hb : (k0 == k2) = false := by simp [Ne.symm h]
      simp [dictInsert, groupGet, assocGet, List.find?, hb]
    · simp only [dictInsert, if_neg h0]
      by_cases h2 : k0 = k2
      · subst h2
        simp [groupGet, assocGet, List.find?]
      · have hb : (k0 == k2) = false := by simp [h2]
        simpa [groupGet, assocGet, List.find?, hb] using ih

/-- Buckets only grow along the keyword-grouping fold. -/
theorem mem_groupGet_foldl (kws : List KeywordRow)
    (acc : List (String × List KeywordRow)) (x : KeywordRow) (key : String)
    (hx : x ∈ groupGet acc key) :
    x ∈ groupGet (kws.foldl
      (fun acc kw => dictInsert acc (keywordGroupKey kw.keyword_type) kw) acc) key := by
  induction kws generalizing acc with
  | nil => simpa using hx
  | cons kw rest ih =>
    refine ih _ ?_
    by_cases h : key = keywordGroupKey kw.keyword_type
    · subst h
      rw [groupGet_dictInsert_same]
      exact List.mem_append_left _ hx
    · rwa [groupGet_dictInsert_other _ _ _ _ h]

/-- Every keyword ends up in the bucket of its own (stripped) type key. -/
theorem mem_groupGet_of_mem (kws : List KeywordRow)
    (acc : List (String × List KeywordRow)) (x : KeywordRow) (hx : x ∈ kws) :
    x ∈ groupGet (kws.foldl
      (fun acc kw => dictInsert acc (keywordGroupKey kw.keyword_type) kw) acc)
      (keywordGroupKey x.keyword_type) := by
  induction kws generalizing acc with
  | nil => cases hx
  | cons kw rest ih =>
    rw [List.foldl_cons]
    rcases List.mem_cons.mp hx with hx | hx
    · subst hx
      refine mem_groupGet_foldl rest _ _ _ ?_
      rw [groupGet_dictInsert_same]
      exact List.mem_append_right _ (by simp)
    · exact ih _ hx

/-- A non-empty bucket comes from an actual entry of the grouped list. -/
theorem exists_entry_of_groupGet_ne_nil {α : Type} (l : List (String × List α))
    (key : String) (h : groupGet l key ≠ []) :
    ∃ p ∈ l, p.1 = key ∧ p.2 = groupGet l key := by
  induction l with
  | nil => simp [groupGet, assocGet] at h
  | cons p rest ih =>
    obtain ⟨k0, v⟩ := p
    by_cases hk : k0 = key
    · subst hk
      exact ⟨(k0, v), by simp, rfl, by simp [groupGet, assocGet]⟩
    · have hb : (k0 == key) = false := by simp [hk]
      have hne : groupGet rest key ≠ [] := by
        simpa [groupGet, assocGet, List.find?, hb] using h
      obtain ⟨q, hq, hk2, hv⟩ := ih hne
      refine ⟨q, List.mem_cons_of_mem _ hq, hk2, ?_⟩
      rw [hv]
      simp [groupGet, assocGet, List.find?, hb]

/-- Claim C4: for the keyword list `[theme soil, theme erosion,
place England]`, `build` emits exactly two descriptive-keyword blocks —
a "theme" block with its two keyword children in input order, then a
"place" block with one keyword child, in first-seen type order — and in
general a keyword group with the empty-string type yields a block whose
type classification element is omitted. -/
theorem keyword_blocks_grouping_scenario :
    keyword_blocks demoKeywords
      = [descriptive_keywords_block "theme" [kwSoil, kwErosion],
         descriptive_keywords_block "place" [kwEngland]]
    ∧ descriptive_keywords_block "theme" [kwSoil, kwErosion]
      = .elem (qn "gmd" "descriptiveKeywords") [] none
          [.elem (qn "gmd" "MD_Keywords") [] none
            [keyword_child kwSoil, keyword_child kwErosion,
             .elem (qn "gmd" "type") [] none
               [.elem (qn "gmd" "MD_KeywordTypeCode")
                 [("codeList", "http://www.isotc211.org/2005/resources/codeList.xml#MD_KeywordTypeCode"),
                  ("codeListValue", "theme")]
                 (some "theme") []]]]
    ∧ descriptive_keywords_block "place" [kwEngland]
      = .elem (qn "gmd" "descriptiveKeywords") [] none
          [.elem (qn "gmd" "MD_Keywords") [] none
            [keyword_child kwEngland,
             .elem (qn "gmd" "type") [] none
               [.elem (qn "gmd" "MD_KeywordTypeCode")
                 [("codeList", "http://www.isotc211.org/2005/resources/codeList.xml#MD_KeywordTypeCode"),
                  ("codeListValue", "place")]
                 (some "place") []]]]
    ∧ ∀ l : List KeywordRow, descriptive_keywords_block "" l
        = .elem (qn "gmd" "descriptiveKeywords") [] none
            [.elem (qn "gmd" "MD_Keywords") [] none (l.map keyword_child)] := by
  refine ⟨rfl, rfl, rfl, fun l => ?_⟩
  simp [descriptive_keywords_block, keyword_type_nodes]

/-- Claim C9: keyword grouping strips surrounding whitespace from the
type before grouping — any two keywords whose types agree after
stripping (a `None` type and the empty string included) land in the
same descriptive-keywords block — and a whitespace-only type behaves as
the empty type, whose block omits the type classification element. -/
theorem keyword_grouping_strips_type :
    (∀ (kws : List KeywordRow) (k1 k2 : KeywordRow), k1 ∈ kws → k2 ∈ kws →
        pyStrip (k1.keyword_type.getD "") = pyStrip (k2.keyword_type.getD "") →
        ∃ p ∈ _group_keywords_by_type kws, k1 ∈ p.2 ∧ k2 ∈ p.2)
    ∧ (∀ (s : String) (l : List KeywordRow), pyStrip s = "" →
        keywordGroupKey (some s) = keywordGroupKey none
        ∧ descriptive_keywords_block (keywordGroupKey (some s)) l
          = .elem (qn "gmd" "descriptiveKeywords") [] none
              [.elem (qn "gmd" "MD_Keywords") [] none (l.map keyword_child)]) := by
  constructor
  · intro kws k1 k2 h1 h2 heq
    have hk : keywordGroupKey k1.keyword_type = keywordGroupKey k2.keyword_type := heq
    have e1 := mem_groupGet_of_mem kws [] k1 h1
    have e2 := mem_groupGet_of_mem kws [] k2 h2
    rw [← hk] at e2
    have hne : groupGet (_group_keywords_by_type kws) (keywordGroupKey k1.keyword_type) ≠ [] :=
      List.ne_nil_of_mem e1
    obtain ⟨p, hp, _, hpv⟩ := exists_entry_of_groupGet_ne_nil _ _ hne
    exact ⟨p, hp, by rw [hpv]; exact e1, by rw [hpv]; exact e2⟩
  · intro s l h
    refine ⟨by simp [keywordGroupKey, h]; rfl, ?_⟩
    simp [keywordGroupKey, h, descriptive_keywords_block, keyword_type_nodes]

/-- Witness for claim C9 at a concrete input: the types `" theme "` and
`"theme"` strip to the same key, so both keywords share one block, and
a whitespace-only type gives the `None`-type key. -/
theorem keyword_grouping_strips_type_witness :
    (kwSpacedTheme ∈ [kwSpacedTheme, kwSoil]
      ∧ kwSoil ∈ [kwSpacedTheme, kwSoil]
      ∧ pyStrip (kwSpacedTheme.keyword_type.getD "")
          = pyStrip (kwSoil.keyword_type.getD "")
      ∧ pyStrip "  " = "")
    ∧ (∃ p ∈ _group_keywords_by_type [kwSpacedTheme, kwSoil],
        kwSpacedTheme ∈ p.2 ∧ kwSoil ∈ p.2)
    ∧ keywordGroupKey (some "  ") = keywordGroupKey none :=
  ⟨⟨by decide, by decide, by decide, by decide⟩,
    keyword_grouping_strips_type.1 [kwSpacedTheme, kwSoil] kwSpacedTheme kwSoil
      (by decide) (by decide) (by decide),
    (keyword_grouping_strips_type.2 "  " [] (by decide)).1⟩

/-- Descriptive-keyword blocks never contribute a purpose element. -/
theorem filter_purpose_map_blocks (l : List (String × List KeywordRow)) :
    (l.map (fun p => descriptive_keywords_block p.1 p.2)).filter
      (fun n => n.tag == qn "gmd" "purpose") = [] := by
  induction l with
  | nil => rfl
  | cons p rest ih => simpa [descriptive_keywords_block, XmlNode.tag, qn] using ih

/-- Claim C8: the identification block carries at most one purpose
element — `group.purpose` when the group is present with a truthy
(non-blank) purpose, else `main.supplemental_information` when that is
truthy, else nothing; group purpose and supplemental information are
never both emitted. -/
theorem purpose_element_exclusive (main : MainRow) (group : Option GroupRow)
    (citation : Option CitationRow) (keywords : List KeywordRow) :
    ((data_identification_children main group citation keywords).filter
        (fun n => n.tag == qn "gmd" "purpose")
      = match group with
        | some g =>
          if strTruthy g.purpose then
            [.elem (qn "gmd" "purpose") [] none [_character_string g.purpose]]
          else if strTruthy main.supplemental_information then
            [.elem (qn "gmd" "purpose") [] none
              [_character_string main.supplemental_information]]
          else []
        | none =>
          if strTruthy main.supplemental_information then
            [.elem (qn "gmd" "purpose") [] none
              [_character_string main.supplemental_information]]
          else [])
    ∧ ((data_identification_children main group citation keywords).filter
        (fun n => n.tag == qn "gmd" "purpose")).length ≤ 1 := by
  have hkw : (keyword_blocks keywords).filter
      (fun n => n.tag == qn "gmd" "purpose") = [] := by
    unfold keyword_blocks
    split
    · rfl
    · exact filter_purpose_map_blocks _
  have hext : ((_build_extent main).toList).filter
      (fun n => n.tag == qn "gmd" "purpose") = [] := by
    unfold _build_extent
    split <;> simp [XmlNode.tag, qn]
  have hcon : (constraint_nodes group).filter
      (fun n => n.tag == qn "gmd" "purpose") = [] := by
    rcases group with _ | g
    · rfl
    · by_cases h1 : strTruthy g.use_constraint <;>
        by_cases h2 : strTruthy g.access_constraint <;>
        simp [constraint_nodes, h1, h2, XmlNode.tag, qn]
  have hst : (status_nodes main).filter
      (fun n => n.tag == qn "gmd" "purpose") = [] := by
    by_cases h : strTruthy main.status_progress <;>
      simp [status_nodes, h, XmlNode.tag, qn]
  have hsp : (spatial_nodes main).filter
      (fun n => n.tag == qn "gmd" "purpose") = [] := by
    by_cases h : strTruthy main.metadata_facing <;>
      simp [spatial_nodes, h, XmlNode.tag, qn]
  have hfil : (data_identification_children main group citation keywords).filter
      (fun n => n.tag == qn "gmd" "purpose") = purpose_nodes group main := by
    rw [data_identification_children]
    simp only [List.filter_append, hkw, hext, hcon, hst, hsp]
    rcases group with _ | g
    · by_cases h : strTruthy main.supplemental_information <;>
        simp [purpose_nodes, supplemental_purpose_nodes, h, citation_element,
          abstract_element, XmlNode.tag, qn]
    · by_cases hg : strTruthy g.purpose <;>
        by_cases h : strTruthy main.supplemental_information <;>
        simp [purpose_nodes, supplemental_purpose_nodes, hg, h, citation_element,
          abstract_element, XmlNode.tag, qn]
  constructor
  · rw [hfil]
    rcases group with _ | g
    · by_cases h : strTruthy main.supplemental_information <;>
        simp [purpose_nodes, supplemental_purpose_nodes, h]
    · by_cases hg : strTruthy g.purpose <;>
        by_cases h : strTruthy main.supplemental_information <;>
        simp [purpose_nodes, supplemental_purpose_nodes, hg, h]
  · rw [hfil]
    rcases group with _ | g
    · by_cases h : strTruthy main.supplemental_information <;>
        simp [purpose_nodes, supplemental_purpose_nodes, h]
    · by_cases hg : strTruthy g.purpose <;>
        by_cases h : strTruthy main.supplemental_information <;>
        simp [purpose_nodes, supplemental_purpose_nodes, hg, h]

/-- Claim C10: whenever the main citation is present, the identification
citation contains exactly one `gmd:date` block whose `CI_Date` always
carries the fixed publication date-type element, while the inner date
value element is present exactly when the publication date formats to
something; with no citation, no date block appears. -/
theorem citation_date_always_publication (main : MainRow) (c : CitationRow) :
    countTag (qn "gmd" "date") (ci_citation_children main (some c)) = 1
    ∧ countTag (qn "gmd" "date") (ci_citation_children main none) = 0
    ∧ ci_date_children c
      = (if (_format_date c.citation_pubdate).isSome then
          [.elem (qn "gmd" "date") [] none
            [_character_string (_format_date c.citation_pubdate)]]
        else []) ++ [date_type_element]
    ∧ date_type_element
      = .elem (qn "gmd" "dateType") [] none
          [.elem (qn "gmd" "CI_DateTypeCode")
            [("codeList", "http://www.isotc211.org/2005/resources/codeList.xml#CI_DateTypeCode"),
             ("codeListValue", "publication")]
            (some "publication") []] := by
  refine ⟨?_, rfl, ?_, rfl⟩
  · rcases h : c.citation_title with _ | t
    · simp [ci_citation_children, optional_element, h, title_element,
        citation_date_block, countTag, XmlNode.tag, qn]
    · by_cases ht : t = "" <;>
        simp [ci_citation_children, optional_element, h, ht, title_element,
          citation_date_block, countTag, XmlNode.tag, qn]
  · unfold ci_date_children
    rw [strTruthy_format_date]

/-- Resolved source-citation elements are exactly the linked
identifiers that resolve through the lookup. -/
theorem length_filter_source_citation_elems (lookup : List (String × CitationRow))
    (ids : List String) :
    ((ids.filterMap (fun cid => (assocGet lookup cid).map (fun c =>
        XmlNode.elem (qn "gmd" "sourceCitation") [] none [_build_ci_citation c]))).filter
      (fun n => n.tag == qn "gmd" "sourceCitation")).length
    = (ids.filter (fun cid => (assocGet lookup cid).isSome)).length := by
  induction ids with
  | nil => rfl
  | cons cid rest ih =>
    rcases h : assocGet lookup cid with _ | c <;>
      simpa [List.filterMap_cons, h, XmlNode.tag] using ih

/-- Claim C7: every source in the bundle yields its own lineage block
(one `gmd:source` per source), the block starts with the source's own
fields, and `sourceCitation` sub-elements arise exactly from the linked
citation identifiers that resolve through the citation lookup —
identifiers absent from the lookup are skipped without error and
contribute no sub-element. -/
theorem lineage_dangling_citations_skipped
    (lookup : List (String × CitationRow))
    (scmap : List (String × List SourceCitationRow)) (sources : List SourceRow) :
    (lineage_source_blocks lookup scmap sources).length = sources.length
    ∧ ∀ s ∈ sources,
        (li_source_children lookup scmap s).take (own_source_children s).length
          = own_source_children s
        ∧ countTag (qn "gmd" "sourceCitation") (li_source_children lookup scmap s)
          = ((linked_citation_ids scmap s).filter
              (fun cid => (assocGet lookup cid).isSome)).length := by
  constructor
  · unfold lineage_source_blocks
    split
    · rename_i h
      rw [List.isEmpty_iff.mp h]
      rfl
    · simp
  · intro s hs
    constructor
    · simp [li_source_children, List.take_left]
    · unfold countTag li_source_children source_citation_elems
      rw [List.filter_append, List.length_append]
      have hown : ((own_source_children s).filter
          (fun n => n.tag == qn "gmd" "sourceCitation")).length = 0 := by
        by_cases h1 : strTruthy s.source_contribution <;>
          by_cases h2 : strTruthy s.source_name <;>
          simp [own_source_children, h1, h2, XmlNode.tag, qn]
      rw [hown, length_filter_source_citation_elems]
      simp

/-- Witness for claim C7 at the spec's dangling-citation scenario:
source S1 references citation C9, the lookup lacks C9, the lineage
block is still produced from S1's own fields and carries no
`sourceCitation` sub-element. -/
theorem lineage_dangling_citations_skipped_witness :
    srcS1 ∈ demoSources
    ∧ ((li_source_children demoLookup demoScmap srcS1).take
          (own_source_children srcS1).length = own_source_children srcS1
      ∧ countTag (qn "gmd" "sourceCitation")
          (li_source_children demoLookup demoScmap srcS1)
        = ((linked_citation_ids demoScmap srcS1).filter
            (fun cid => (assocGet demoLookup cid).isSome)).length)
    ∧ countTag (qn "gmd" "sourceCitation")
        (li_source_children demoLookup demoScmap srcS1) = 0 :=
  ⟨by decide,
    (lineage_dangling_citations_skipped demoLookup demoScmap demoSources).2 srcS1
      (by decide),
    by rfl⟩

/-- The group fetch never issues a contact query. -/
theorem filter_contactsQ_groupStep (st : Store) (main : MainRow) :
    ((groupStep st main).2).filter Query.isContactsQ = [] := by
  unfold groupStep
  rcases main.group_id with _ | gid
  · rfl
  · by_cases h : gid = "" <;> simp [h, fetch_group, Query.isContactsQ]

/-- The citation fetch never issues a contact query. -/
theorem filter_contactsQ_citationStep (st : Store) (main : MainRow) :
    ((citationStep st main).2).filter Query.isContactsQ = [] := by
  unfold citationStep
  rcases main.citation_id with _ | cid
  · rfl
  · by_cases h : cid = "" <;> simp [h, fetch_citation, Query.isContactsQ]

/-- The batched source-citation fetch never issues a contact query. -/
theorem filter_contactsQ_fetch_source_citations (st : Store) (ids : List String) :
    ((fetch_source_citations st ids).2).filter Query.isContactsQ = [] := by
  unfold fetch_source_citations
  split <;> simp [Query.isContactsQ]

/-- The batched citation fetch never issues a contact query. -/
theorem filter_contactsQ_fetch_citations_for_ids (st : Store) (ids : List String) :
    ((fetch_citations_for_ids st ids).2).filter Query.isContactsQ = [] := by
  unfold fetch_citations_for_ids
  split <;> simp [Query.isContactsQ]

/-- The source / source-citation / citation-lookup step never issues a
contact query. -/
theorem filter_contactsQ_sourcesCitationStep (st : Store) (sources : List SourceRow) :
    ((sourcesCitationStep st sources).2).filter Query.isContactsQ = [] := by
  unfold sourcesCitationStep
  split
  · rfl
  · simp [List.filter_append, filter_contactsQ_fetch_source_citations,
      filter_contactsQ_fetch_citations_for_ids]

/-- Deduplicating a doubled identifier keeps it once. -/
theorem dedupFirst_pair (x : String) : dedupFirst [x, x] = [x] := by
  simp [dedupFirst, List.contains_cons]

/-- Claim C6: when the primary record is missing, bundle assembly fails
with the not-found error immediately after the first fetch — the log
holds only the main-record query and no bundle is returned; when the
primary record exists, the returned bundle always contains it. -/
theorem bundle_not_found_fail_fast (st : Store) (metadata_id : String)
    (include_sources include_keywords : Bool) :
    ((fetch_main_record st metadata_id).1 = none →
      fetch_metadata_bundle st metadata_id include_sources include_keywords
        = (.error (notFoundMessage metadata_id), [.mainQ metadata_id]))
    ∧ (∀ m : MainRow, (fetch_main_record st metadata_id).1 = some m →
      ∃ b : Bundle,
        (fetch_metadata_bundle st metadata_id include_sources include_keywords).1
          = .ok b
        ∧ b.main = m) := by
  constructor
  · intro h
    simp only [fetch_main_record] at h
    simp [fetch_metadata_bundle, fetch_main_record, h]
  · intro m h
    simp only [fetch_main_record] at h
    simp only [fetch_metadata_bundle, fetch_main_record, h]
    exact ⟨_, rfl, rfl⟩

/-- Witness for claim C6: the empty store fails fast for M1; the demo
store returns a bundle carrying M1's main record. -/
theorem bundle_not_found_fail_fast_witness :
    ((fetch_main_record emptyStore "M1").1 = none
      ∧ fetch_metadata_bundle emptyStore "M1" true true
        = (.error (notFoundMessage "M1"), [.mainQ "M1"]))
    ∧ ((fetch_main_record demoStore "M1").1 = some mainM1
      ∧ ∃ b : Bundle, (fetch_metadata_bundle demoStore "M1" true true).1 = .ok b
        ∧ b.main = mainM1) :=
  ⟨⟨rfl, (bundle_not_found_fail_fast emptyStore "M1" true true).1 rfl⟩,
   ⟨rfl, (bundle_not_found_fail_fast demoStore "M1" true true).2 mainM1 rfl⟩⟩

/-- Claim C5: when the group's contact and metadata-contact identifiers
coincide, exactly one batched contact query is issued, carrying just
that identifier once, and both resolved contacts in the bundle are the
same record; a batched contact fetch with zero identifiers returns an
empty mapping without issuing any query. -/
theorem contact_lookup_deduplicated (st : Store) (mid : String)
    (fs fk : Bool) (b : Bundle) (log : List Query) (g : GroupRow) (cid : String)
    (hres : fetch_metadata_bundle st mid fs fk = (.ok b, log))
    (hg : b.group = some g)
    (hc1 : g.contact_id = some cid) (hc2 : g.metadata_contact_id = some cid) :
    (log.filter Query.isContactsQ = [.contactsQ [cid]]
      ∧ b.group_contact = b.metadata_contact)
    ∧ ∀ st2 : Store, fetch_contacts_for_ids st2 [] = ([], []) := by
  refine ⟨?_, fun st2 => rfl⟩
  simp only [fetch_metadata_bundle, fetch_main_record] at hres
  rcases hfind : st.metadata_main.find? (fun r => r.metadata_id == mid) with _ | main
  · rw [hfind] at hres
    simp at hres
  · rw [hfind] at hres
    rw [Prod.mk.injEq] at hres
    obtain ⟨hb, hlog⟩ := hres
    rw [Except.ok.injEq] at hb
    subst hb
    simp only [Bundle.group] at hg
    have hids : contactIdsOf (groupStep st main).1 = [cid, cid] := by
      rw [hg]
      simp [contactIdsOf, hc1, hc2]
    have hkp : contactsStep st (groupStep st main).1
        = (((st.metadata_contacts.filter
            (fun r => [cid].contains r.contact_id)).map (fun r => (r.contact_id, r))),
          [.contactsQ [cid]]) := by
      unfold contactsStep
      rw [hids]
      simp [dedupFirst_pair, fetch_contacts_for_ids]
    constructor
    · rw [← hlog]
      simp only [List.filter_append, hkp, filter_contactsQ_groupStep,
        filter_contactsQ_citationStep, filter_contactsQ_sourcesCitationStep]
      have hwp : ((if fk then fetch_keywords st mid else ([], [])).2).filter
          Query.isContactsQ = [] := by
        split <;> simp [fetch_keywords, Query.isContactsQ]
      have hsp : ((if fs then fetch_sources st mid else ([], [])).2).filter
          Query.isContactsQ = [] := by
        split <;> simp [fetch_sources, Query.isContactsQ]
      simp [hwp, hsp, fetch_attributes, Query.isContactsQ]
    · simp only [Bundle.group_contact, Bundle.metadata_contact]
      rw [hg]
      simp [resolveContact, hc1, hc2]

/-- Witness for claim C5: on the demo store, group G1 shares contact P1
for both slots; the assembled bundle issues one contact query for
`["P1"]` and resolves both slots to the same record. -/
theorem contact_lookup_deduplicated_witness :
    (fetch_metadata_bundle demoStore "M1" true true = (.ok demoBundle, demoLog)
      ∧ demoBundle.group = some groupG1
      ∧ groupG1.contact_id = some "P1"
      ∧ groupG1.metadata_contact_id = some "P1")
    ∧ ((demoLog.filter Query.isContactsQ = [.contactsQ ["P1"]]
        ∧ demoBundle.group_contact = demoBundle.metadata_contact)
      ∧ ∀ st2 : Store, fetch_contacts_for_ids st2 [] = ([], [])) :=
  ⟨⟨rfl, rfl, rfl, rfl⟩,
    contact_lookup_deduplicated demoStore "M1" true true demoBundle demoLog
      groupG1 "P1" rfl rfl rfl rfl⟩

/-- Counterexample to claim C3 as stated: the grave accent (backtick,
U+0060) is a standard ASCII character, yet the normalisation map sends
it to the ASCII apostrophe, so `normalise_quotes` is not the identity
on every all-ASCII string. -/
theorem normalise_quotes_not_ascii_identity :
    (∀ c ∈ backtickStr.data, c.toNat ≤ 127)
    ∧ normalise_quotes backtickStr ≠ backtickStr := by
  exact ⟨by decide, by decide⟩

/-- A character that is ASCII but not the grave accent is untouched by
the translation table (all other table keys lie above U+009F). -/
theorem translateChar_id (c : Char) (h7 : c.toNat ≤ 127) (h96 : c.toNat ≠ 96) :
    translateChar c = c := by
  unfold translateChar
  rcases hfind : _NORMALISATION_MAP.find? (fun p => p.1 == c) with _ | p
  · rw [hfind]
  · exfalso
    have hmem := List.mem_of_find?_eq_some hfind
    have heq := List.find?_some hfind
    fin_cases hmem <;>
      (simp only [beq_iff_eq] at heq
       subst heq
       revert h7 h96
       decide)

/-- Character-wise form of the previous lemma. -/
theorem map_translateChar_id (l : List Char)
    (h : ∀ c ∈ l, c.toNat ≤ 127 ∧ c.toNat ≠ 96) : l.map translateChar = l := by
  induction l with
  | nil => rfl
  | cons c rest ih =>
    have hc := h c (by simp)
    rw [List.map_cons, translateChar_id c hc.1 hc.2,
      ih (fun x hx => h x (by simp [hx]))]

/-- Claim C3 as amended: `normalise_quotes` is the identity on every
ASCII string containing no grave accent (U+0060), and on the scenario
input with smart quotes it yields the ASCII-apostrophe form. -/
theorem normalise_quotes_ascii_identity_amended :
    (∀ s : String, (∀ c ∈ s.data, c.toNat ≤ 127 ∧ c.toNat ≠ 96) →
      normalise_quotes s = s)
    ∧ normalise_quotes demoSmart = demoExpectedAscii := by
  constructor
  · intro s h
    obtain ⟨data⟩ := s
    unfold normalise_quotes
    rw [map_translateChar_id _ h]
  · decide

/-- Witness for the amended claim C3 at a concrete all-ASCII input. -/
theorem normalise_quotes_ascii_identity_amended_witness :
    (∀ c ∈ ("Plain ASCII text.").data, c.toNat ≤ 127 ∧ c.toNat ≠ 96)
    ∧ normalise_quotes "Plain ASCII text." = "Plain ASCII text." :=
  ⟨by decide,
    normalise_quotes_ascii_identity_amended.1 "Plain ASCII text." (by decide)⟩

end LandIS
